import Mathlib

/-!
Verification of the resilient content-acquisition subsystem of the
scholarmap agent server: the six-layer fetch ladder, the per-strategy
success checks, the HTML content normalizer, and the batch orchestrator.

The embedding follows app/services/scraper.py and app/routers/ingestion.py.
Python string operations are modelled character-by-character over
String.data, so every definition evaluates inside the kernel.
-/

set_option maxRecDepth 4000

namespace ScholarMap

/-- Python s.lower(): lowercase every character. -/
def pyLower (s : String) : String := ⟨s.data.map Char.toLower⟩

/-- Python s[:n]: keep the first n characters. -/
def pySlice (s : String) (n : Nat) : String := ⟨s.data.take n⟩

/-- Python len(s) over characters. -/
def pyLen (s : String) : Nat := s.data.length

/-- Does the second list start with the first one? -/
def startsList : List Char → List Char → Bool
  | [], _ => true
  | _ :: _, [] => false
  | a :: as, b :: bs => a == b && startsList as bs

/-- Is the needle a contiguous sublist of the haystack? -/
def hasSub (needle : List Char) : List Char → Bool
  | [] => startsList needle []
  | h :: t => startsList needle (h :: t) || hasSub needle t

/-- Python membership test: needle in hay. -/
def pyIn (needle hay : String) : Bool := hasSub needle.data hay.data

/-- Python s.startswith(p). -/
def pyStarts (s p : String) : Bool := startsList p.data s.data

/-- Python s.strip(): drop whitespace from both ends. -/
def pyStrip (s : String) : String :=
  ⟨(((s.data.dropWhile Char.isWhitespace).reverse.dropWhile Char.isWhitespace).reverse)⟩

/-! ### Strategy response checks (app/services/scraper.py)

Each of the six fetch layers decides, from the response it obtained,
whether to hand the body back as a success or to report failure (None).
The functions below embed exactly those decision lines, applied to one
response (status code and body text).  Transport-level retries inside a
layer re-run the same check on the response of each try. -/

/-- Block-signaling status codes checked by the three direct-client layers
(scraper.py lines 120, 166, 220). -/
def blockStatuses : List Nat := [403, 429, 503, 520, 521, 522, 523, 524]

/-- Status codes checked by the playwright basic and human layers
(scraper.py lines 293, 396). -/
def pwBlockStatuses : List Nat := [403, 429, 503]

/-- Keywords the cloudscraper layer scans for in the first 2000 lowered
characters (scraper.py line 226). -/
def cloudscraperIndicators : List String :=
  ["blocked", "captcha", "challenge", "attention required", "access denied"]

/-- Keywords the challenge-bypass layer scans for in the whole lowered body
(scraper.py lines 506-510). -/
def challengeIndicators : List String :=
  ["challenge-running", "cf-browser-verification", "please wait",
   "checking your browser", "ddos-guard", "just a moment", "verify you are human"]

/-- Layer 1 decision (scraper.py lines 120-131): block statuses are skipped;
a 200 response succeeds when the body exceeds 500 characters and the word
"blocked" does not occur in its first 1000 lowered characters. -/
def fetch_with_curl_cffi (status : Nat) (content : String) : Option String :=
  if blockStatuses.contains status then none
  else if status = 200 then
    if 500 < pyLen content then
      if pyIn "blocked" (pySlice (pyLower content) 1000) then none else some content
    else none
  else none

/-- Layer 2 decision (scraper.py lines 166-174): block statuses are skipped;
a 200 response succeeds when the body exceeds 500 characters.  No keyword
scan is performed. -/
def fetch_with_httpx (status : Nat) (content : String) : Option String :=
  if blockStatuses.contains status then none
  else if status = 200 then
    if 500 < pyLen content then some content else none
  else none

/-- Layer 3 decision (scraper.py lines 220-231): block statuses fail; a 200
response succeeds when the body exceeds 500 characters and none of the five
block indicators occurs in its first 2000 lowered characters. -/
def fetch_with_cloudscraper (status : Nat) (content : String) : Option String :=
  if blockStatuses.contains status then none
  else if status = 200 then
    if 500 < pyLen content then
      if cloudscraperIndicators.all
          (fun ind => !(pyIn ind (pySlice (pyLower content) 2000))) then
        some content
      else none
    else none
  else none

/-- Layer 4 decision (scraper.py lines 293-304): only statuses 403, 429 and
503 are rejected; otherwise the rendered body succeeds when it exceeds 500
characters, with no keyword scan. -/
def fetch_with_playwright_basic (status : Nat) (content : String) : Option String :=
  if pwBlockStatuses.contains status then none
  else if 500 < pyLen content then some content else none

/-- Layer 5 decision (scraper.py lines 396-434): same status and length
checks as layer 4. -/
def fetch_with_playwright_human (status : Nat) (content : String) : Option String :=
  if pwBlockStatuses.contains status then none
  else if 500 < pyLen content then some content else none

/-- Layer 6 decision (scraper.py lines 523-529): no status inspection at
all; the rendered body succeeds when it exceeds 500 characters and no
challenge indicator occurs anywhere in the lowered body. -/
def fetch_with_playwright_challenge (content : String) : Option String :=
  if 500 < pyLen content then
    if challengeIndicators.all (fun ind => !(pyIn ind (pyLower content))) then
      some content
    else none
  else none

/-! ### Content normalizer (scraper.py lines 542-560)

BeautifulSoup parsing, tag removal and visible-text extraction are external
library work; the embedding takes them as a parameter
extractText : String -> Option String, where none models the exception
branch of the try block and some t the extracted text. -/

/-- clean_html_content (scraper.py lines 542-560): on parse failure return
the raw markup capped at 50000 characters; when the extracted text is under
500 characters fall back to the capped raw markup; otherwise return the
capped extracted text. -/
def clean_html_content (extractText : String → Option String) (content : String) : String :=
  match extractText content with
  | none => pySlice content 50000
  | some text => if pyLen text < 500 then pySlice content 50000 else pySlice text 50000

/-! ### Escalation orchestrator (scraper.py lines 567-606)

fetch_page_content tries the six layers in order and returns the cleaned
body of the first layer that produced content, raising a single exception
when all six returned None.  The control flow depends only on the Option
result of each layer, embedded here as results : Nat -> Option String. -/

/-- The fixed ladder order. -/
def layerIds : List Nat := [1, 2, 3, 4, 5, 6]

/-- Walk the given layers in order; record every layer invoked and stop at
the first one returning content. -/
def runLayers (results : Nat → Option String) : List Nat → List Nat × Option String
  | [] => ([], none)
  | i :: rest =>
    match results i with
    | some c => ([i], some c)
    | none =>
      let r := runLayers results rest
      (i :: r.1, r.2)

/-- The attempt trace and terminal content of one single-fetch call. -/
def fetchTrace (results : Nat → Option String) : List Nat × Option String :=
  runLayers results layerIds

/-- The message of the exception raised on total exhaustion
(scraper.py line 606). -/
def exhaustedMessage (url : String) : String :=
  "Failed to fetch content from " ++ url ++ " - All 6 layers exhausted"

/-- fetch_page_content (scraper.py lines 567-606): normalized content of
the first successful layer, or the single aggregated error. -/
def fetch_page_content (extractText : String → Option String) (url : String)
    (results : Nat → Option String) : Except String String :=
  match (fetchTrace results).2 with
  | some c => Except.ok (clean_html_content extractText c)
  | none => Except.error (exhaustedMessage url)

/-- One response per layer, for runs driven by the per-layer checks. -/
structure LayerResponse where
  status : Nat
  content : String

/-- The layer outcomes induced by concrete per-layer responses. -/
def layerResults (env : Nat → LayerResponse) : Nat → Option String
  | 1 => fetch_with_curl_cffi (env 1).status (env 1).content
  | 2 => fetch_with_httpx (env 2).status (env 2).content
  | 3 => fetch_with_cloudscraper (env 3).status (env 3).content
  | 4 => fetch_with_playwright_basic (env 4).status (env 4).content
  | 5 => fetch_with_playwright_human (env 5).status (env 5).content
  | 6 => fetch_with_playwright_challenge (env 6).content
  | _ => none

/-- A single fetch driven by concrete per-layer responses. -/
def fetch_from_responses (extractText : String → Option String) (url : String)
    (env : Nat → LayerResponse) : Except String String :=
  fetch_page_content extractText url (layerResults env)

/-! ### Batch orchestrator (app/routers/ingestion.py lines 186-365)

The fetch call, the model extraction and the database writes inside
process_single_url can each succeed or raise; the embedding carries their
outcomes in a UrlEnv record.  asyncio.gather preserves input order, so the
batch is a map over the cleaned url list. -/

/-- Outcome record for one url: the fetch result (ok content or the raised
message), the extraction outcome and the database outcome. -/
structure UrlEnv where
  fetchResult : Except String String
  extractResult : Except String Unit
  dbResult : Except String String

/-- One per-url item of the batch response (models/schemas BatchItemResult,
restricted to the fields the batch logic reads). -/
structure BatchItemResult where
  url : String
  success : Bool
  error : Option String
  program_id : Option String

/-- process_single_url (ingestion.py lines 186-318): every failure path is
caught and becomes a success=false item with an error message. -/
def process_single_url (url : String) (env : UrlEnv) : BatchItemResult :=
  if !(pyStarts url "http://" || pyStarts url "https://") then
    ⟨url, false, some "Invalid URL format", none⟩
  else
    match env.fetchResult with
    | Except.error e => ⟨url, false, some ("Scraping failed: " ++ e), none⟩
    | Except.ok content =>
      if content = "" ∨ pyLen content < 100 then
        ⟨url, false, some "Failed to fetch page content or page too short", none⟩
      else
        match env.extractResult with
        | Except.error e => ⟨url, false, some ("AI extraction failed: " ++ e), none⟩
        | Except.ok _ =>
          match env.dbResult with
          | Except.error e => ⟨url, false, some ("Database error: " ++ e), none⟩
          | Except.ok pid => ⟨url, true, none, some pid⟩

/-- The aggregate batch response (models/schemas BatchIngestResponse). -/
structure BatchIngestResponse where
  total : Nat
  successful : Nat
  failed : Nat
  results : List BatchItemResult

/-- ingestion.py line 331: strip each url and keep the non-empty ones. -/
def stripUrls (urls : List String) : List String :=
  (urls.map pyStrip).filter (fun u => u ≠ "")

/-- batch_ingest (ingestion.py lines 321-365): one item per processed url,
then the summary counts. -/
def batch_ingest (envOf : String → UrlEnv) (urls : List String) : BatchIngestResponse :=
  let results := (stripUrls urls).map (fun u => process_single_url u (envOf u))
  let successful := List.countP (fun r => r.success) results
  ⟨results.length, successful, results.length - successful, results⟩

/-! ### Concrete bodies used by witnesses and counterexamples -/

/-- A body of 501 identical characters: long enough to pass every length
check in the subsystem. -/
def longContent : String := ⟨List.replicate 501 'a'⟩

/-- A body of exactly 500 identical characters. -/
def c500 : String := ⟨List.replicate 500 'a'⟩

/-- A 502-character body beginning with the block keyword. -/
def blockedContent : String := ⟨"blocked".data ++ List.replicate 495 'a'⟩

/-! ### Helper lemmas -/

theorem pyLen_pySlice (s : String) (n : Nat) : pyLen (pySlice s n) ≤ n := by
  simp [pyLen, pySlice, List.length_take]

theorem pyLen_pySlice_le_self (s : String) (n : Nat) : pyLen (pySlice s n) ≤ pyLen s := by
  simp [pyLen, pySlice, List.length_take]

theorem pySlice_of_le (s : String) (n : Nat) (h : pyLen s ≤ n) : pySlice s n = s := by
  cases s with
  | mk data => exact congrArg String.mk (List.take_of_length_le h)

theorem clean_le_cap (g : String → Option String) (c : String) :
    pyLen (clean_html_content g c) ≤ 50000 := by
  unfold clean_html_content
  cases g c with
  | none => exact pyLen_pySlice c 50000
  | some t =>
      by_cases h : pyLen t < 500
      · simp only [if_pos h]
        exact pyLen_pySlice c 50000
      · simp only [if_neg h]
        exact pyLen_pySlice t 50000

theorem runLayers_none_iff (results : Nat → Option String) (l : List Nat) :
    (runLayers results l).2 = none ↔ ∀ i ∈ l, results i = none := by
  induction l with
  | nil => simp [runLayers]
  | cons i rest ih =>
      cases h : results i with
      | some c => simp [runLayers, h]
      | none => simp [runLayers, h, ih]

/-! ### Claims C1 and C2: the escalation ladder -/

/-- C1: for every assignment of layer outcomes, a single fetch walks the
six strategies in escalation order, invokes each at most once, stops at the
first one returning content, hands only that content to the normalizer, and
its attempt trace is exactly the strategies 1..k in order for some k with
1 <= k <= 6, ending in a success or, when k = 6 and all six failed, in
exhaustion. -/
theorem fetch_ladder_trace (g : String → Option String) (url : String)
    (results : Nat → Option String) :
    ∃ k, 1 ≤ k ∧ k ≤ 6 ∧ (fetchTrace results).1 = List.range' 1 k ∧
      (∀ j, 1 ≤ j → j < k → results j = none) ∧
      ((∃ c, results k = some c ∧ (fetchTrace results).2 = some c ∧
          fetch_page_content g url results = Except.ok (clean_html_content g c)) ∨
        (k = 6 ∧ (∀ j, 1 ≤ j → j ≤ 6 → results j = none) ∧
          fetch_page_content g url results = Except.error (exhaustedMessage url))) := by
  cases h1 : results 1 with
  | some c =>
      refine ⟨1, le_refl 1, by omega, ?_, ?_, Or.inl ⟨c, h1, ?_, ?_⟩⟩
      · simp [fetchTrace, layerIds, runLayers, h1, List.range']
      · intro j hj1 hj2; omega
      · simp [fetchTrace, layerIds, runLayers, h1]
      · simp [fetch_page_content, fetchTrace, layerIds, runLayers, h1]
  | none => cases h2 : results 2 with
    | some c =>
        refine ⟨2, by omega, by omega, ?_, ?_, Or.inl ⟨c, h2, ?_, ?_⟩⟩
        · simp [fetchTrace, layerIds, runLayers, h1, h2, List.range']
        · intro j hj1 hj2
          interval_cases j
          exact h1
        · simp [fetchTrace, layerIds, runLayers, h1, h2]
        · simp [fetch_page_content, fetchTrace, layerIds, runLayers, h1, h2]
    | none => cases h3 : results 3 with
      | some c =>
          refine ⟨3, by omega, by omega, ?_, ?_, Or.inl ⟨c, h3, ?_, ?_⟩⟩
          · simp [fetchTrace, layerIds, runLayers, h1, h2, h3, List.range']
          · intro j hj1 hj2
            interval_cases j <;> assumption
          · simp [fetchTrace, layerIds, runLayers, h1, h2, h3]
          · simp [fetch_page_content, fetchTrace, layerIds, runLayers, h1, h2, h3]
      | none => cases h4 : results 4 with
        | some c =>
            refine ⟨4, by omega, by omega, ?_, ?_, Or.inl ⟨c, h4, ?_, ?_⟩⟩
            · simp [fetchTrace, layerIds, runLayers, h1, h2, h3, h4, List.range']
            · intro j hj1 hj2
              interval_cases j <;> assumption
            · simp [fetchTrace, layerIds, runLayers, h1, h2, h3, h4]
            · simp [fetch_page_content, fetchTrace, layerIds, runLayers, h1, h2, h3, h4]
        | none => cases h5 : results 5 with
          | some c =>
              refine ⟨5, by omega, by omega, ?_, ?_, Or.inl ⟨c, h5, ?_, ?_⟩⟩
              · simp [fetchTrace, layerIds, runLayers, h1, h2, h3, h4, h5, List.range']
              · intro j hj1 hj2
                interval_cases j <;> assumption
              · simp [fetchTrace, layerIds, runLayers, h1, h2, h3, h4, h5]
              · simp [fetch_page_content, fetchTrace, layerIds, runLayers,
                  h1, h2, h3, h4, h5]
          | none => cases h6 : results 6 with
            | some c =>
                refine ⟨6, by omega, by omega, ?_, ?_, Or.inl ⟨c, h6, ?_, ?_⟩⟩
                · simp [fetchTrace, layerIds, runLayers, h1, h2, h3, h4, h5, h6,
                    List.range']
                · intro j hj1 hj2
                  interval_cases j <;> assumption
                · simp [fetchTrace, layerIds, runLayers, h1, h2, h3, h4, h5, h6]
                · simp [fetch_page_content, fetchTrace, layerIds, runLayers,
                    h1, h2, h3, h4, h5, h6]
            | none =>
                refine ⟨6, by omega, by omega, ?_, ?_, Or.inr ⟨rfl, ?_, ?_⟩⟩
                · simp [fetchTrace, layerIds, runLayers, h1, h2, h3, h4, h5, h6,
                    List.range']
                · intro j hj1 hj2
                  interval_cases j <;> assumption
                · intro j hj1 hj2
                  interval_cases j <;> assumption
                · simp [fetch_page_content, fetchTrace, layerIds, runLayers,
                    h1, h2, h3, h4, h5, h6]

/-- C1 witness: the trace statement instantiated at a run whose second
layer is the first to return content. -/
theorem fetch_ladder_trace_witness :
    ∃ k, 1 ≤ k ∧ k ≤ 6 ∧
      (fetchTrace (fun i => if i = 2 then some "page" else none)).1 = List.range' 1 k ∧
      (∀ j, 1 ≤ j → j < k → (fun i => if i = 2 then some "page" else none) j = none) ∧
      ((∃ c, (fun i => if i = 2 then some "page" else none) k = some c ∧
          (fetchTrace (fun i => if i = 2 then some "page" else none)).2 = some c ∧
          fetch_page_content (fun _ => none) "http://example.com"
            (fun i => if i = 2 then some "page" else none) =
            Except.ok (clean_html_content (fun _ => none) c)) ∨
        (k = 6 ∧
          (∀ j, 1 ≤ j → j ≤ 6 → (fun i => if i = 2 then some "page" else none) j = none) ∧
          fetch_page_content (fun _ => none) "http://example.com"
            (fun i => if i = 2 then some "page" else none) =
            Except.error (exhaustedMessage "http://example.com"))) :=
  fetch_ladder_trace (fun _ => none) "http://example.com"
    (fun i => if i = 2 then some "page" else none)

/-- C2 counterexample: two exhausted runs whose per-strategy failures
differ (every layer blocked by status 403 versus every layer seeing a
two-character 200 body) raise the very same fixed error value, so the
aggregated error cannot carry a per-strategy failure summary or say why
any layer failed. -/
theorem exhausted_error_uniform :
    fetch_from_responses (fun _ => none) "http://example.com"
        (fun _ => ⟨403, "short"⟩) =
      fetch_from_responses (fun _ => none) "http://example.com"
        (fun _ => ⟨200, "hi"⟩) ∧
    fetch_from_responses (fun _ => none) "http://example.com"
        (fun _ => ⟨403, "short"⟩) =
      Except.error
        "Failed to fetch content from http://example.com - All 6 layers exhausted" :=
  ⟨rfl, rfl⟩

/-- C2 amended: a single fetch propagates an error to the caller if and
only if all six strategies returned nothing, and that error is always the
one fixed message naming the URL and stating that all six layers were
exhausted; it contains no per-strategy failure detail. -/
theorem fetch_error_iff_exhausted (g : String → Option String) (url : String)
    (results : Nat → Option String) :
    (fetch_page_content g url results = Except.error (exhaustedMessage url) ↔
      ∀ i ∈ layerIds, results i = none) ∧
    (∀ e, fetch_page_content g url results = Except.error e →
      e = exhaustedMessage url) := by
  have hval : (fetchTrace results).2 = none ↔ ∀ i ∈ layerIds, results i = none :=
    runLayers_none_iff results layerIds
  unfold fetch_page_content
  cases h : (fetchTrace results).2 with
  | some c =>
      rw [h] at hval
      constructor
      · constructor
        · intro hc
          cases hc
        · intro hall
          exact absurd (hval.mpr hall) (by simp)
      · intro e he
        cases he
  | none =>
      rw [h] at hval
      constructor
      · constructor
        · intro hc
          exact hval.mp rfl
        · intro hall
          rfl
      · intro e he
        cases he
        rfl

/-- C2 witness: the amended statement instantiated at a concrete run in
which every layer fails. -/
theorem fetch_error_iff_exhausted_witness :
    (fetch_page_content (fun _ => none) "http://example.com" (fun _ => none) =
        Except.error (exhaustedMessage "http://example.com") ↔
      ∀ i ∈ layerIds, (fun _ : Nat => (none : Option String)) i = none) ∧
    (∀ e, fetch_page_content (fun _ => none) "http://example.com" (fun _ => none) =
        Except.error e → e = exhaustedMessage "http://example.com") :=
  fetch_error_iff_exhausted (fun _ => none) "http://example.com" (fun _ => none)

/-! ### Claims C4, C7, C8: the content normalizer -/

/-- C4: on every branch the normalizer output is at most 50000 characters,
and consequently every successful single fetch delivers at most 50000
characters. -/
theorem normalizer_cap (g : String → Option String) (c : String) (url : String)
    (results : Nat → Option String) :
    pyLen (clean_html_content g c) ≤ 50000 ∧
    (∀ out, fetch_page_content g url results = Except.ok out → pyLen out ≤ 50000) := by
  refine ⟨clean_le_cap g c, ?_⟩
  intro out hout
  unfold fetch_page_content at hout
  cases h : (fetchTrace results).2 with
  | some c2 =>
      rw [h] at hout
      cases hout
      exact clean_le_cap g c2
  | none =>
      rw [h] at hout
      cases hout

/-- C4 witness: the cap theorem applied to a concrete fetch whose first
layer succeeds with the four-character body "page". -/
theorem normalizer_cap_witness : pyLen (pySlice "page" 50000) ≤ 50000 :=
  (normalizer_cap (fun _ => none) "page" "http://example.com"
      (fun i => if i = 1 then some "page" else none)).2 (pySlice "page" 50000) rfl

/-- C7: when extraction fails the normalizer returns the capped raw markup;
when the extracted text is under 500 characters it returns the capped raw
markup; otherwise it returns the capped extracted text. -/
theorem normalizer_branches (g : String → Option String) (content : String) :
    (g content = none → clean_html_content g content = pySlice content 50000) ∧
    (∀ text, g content = some text → pyLen text < 500 →
      clean_html_content g content = pySlice content 50000) ∧
    (∀ text, g content = some text → 500 ≤ pyLen text →
      clean_html_content g content = pySlice text 50000) := by
  refine ⟨?_, ?_, ?_⟩
  · intro h
    unfold clean_html_content
    rw [h]
  · intro t h hlt
    unfold clean_html_content
    rw [h]
    simp [hlt]
  · intro t h hge
    unfold clean_html_content
    rw [h]
    simp [Nat.not_lt.mpr hge]

/-- C7 witness: the branch theorem applied on the parse-failure branch at a
concrete input. -/
theorem normalizer_branches_witness :
    clean_html_content (fun _ => none) "x" = pySlice "x" 50000 :=
  (normalizer_branches (fun _ => none) "x").1 rfl

/-- C8: every normalizer output is within the cap; re-normalizing it with
any extraction that does not lengthen the text yields output of equal or
lesser length; and when the extraction returns the already-normalized text
itself (or fails to parse), re-normalization returns the text completely
unchanged, with no further truncation below the cap. -/
theorem normalizer_idempotent (o : String) (h : ∃ g c, clean_html_content g c = o) :
    pyLen o ≤ 50000 ∧
    (∀ g2, (∀ t, g2 o = some t → pyLen t ≤ pyLen o) →
      pyLen (clean_html_content g2 o) ≤ pyLen o) ∧
    (∀ g2, (g2 o = none ∨ g2 o = some o) → clean_html_content g2 o = o) := by
  obtain ⟨g, c, hgc⟩ := h
  have hcap : pyLen o ≤ 50000 := hgc ▸ clean_le_cap g c
  refine ⟨hcap, ?_, ?_⟩
  · intro g2 hmono
    cases hg : g2 o with
    | none => simp [clean_html_content, hg, pySlice_of_le o 50000 hcap]
    | some t =>
        by_cases hlt : pyLen t < 500
        · simp [clean_html_content, hg, hlt, pySlice_of_le o 50000 hcap]
        · simp only [clean_html_content, hg, if_neg hlt]
          exact le_trans (pyLen_pySlice_le_self t 50000) (hmono t hg)
  · intro g2 hor
    rcases hor with hg | hg
    · simp [clean_html_content, hg, pySlice_of_le o 50000 hcap]
    · simp [clean_html_content, hg, pySlice_of_le o 50000 hcap]

/-- C8 witness: a concrete 501-character normalized text is returned
completely unchanged by a second normalization pass. -/
theorem normalizer_idempotent_witness :
    clean_html_content (fun s => some s) longContent = longContent :=
  (normalizer_idempotent longContent
      ⟨fun s => some s, longContent, by decide⟩).2.2 (fun s => some s) (Or.inr rfl)

/-! ### Claim C3: batch accounting and failure isolation -/

theorem process_url_url (u : String) (e : UrlEnv) : (process_single_url u e).url = u := by
  unfold process_single_url
  repeat' split
  all_goals rfl

theorem process_url_shape (u : String) (e : UrlEnv) :
    (process_single_url u e).success = true ∨
      ∃ m, (process_single_url u e).error = some m := by
  unfold process_single_url
  repeat' split
  all_goals first
    | exact Or.inl rfl
    | exact Or.inr ⟨_, rfl⟩

theorem batch_isolation_aux (envA envB : String → UrlEnv) (v : String)
    (h : ∀ u, u ≠ v → envA u = envB u) (l : List String) :
    ((l.map fun u => process_single_url u (envA u)).filter fun r => r.url ≠ v) =
      ((l.map fun u => process_single_url u (envB u)).filter fun r => r.url ≠ v) := by
  induction l with
  | nil => rfl
  | cons u t ih =>
      by_cases hu : u = v
      · simp only [List.map_cons, List.filter_cons, process_url_url, hu]
        simpa using ih
      · rw [List.map_cons, List.map_cons, h u hu, List.filter_cons, List.filter_cons, ih]

/-- C3: the batch orchestrator produces exactly one item per processed url;
the summary counts satisfy total = number of results = successful + failed,
with successful counting exactly the items marked success; every item
marked unsuccessful carries an error message; and replacing the outcomes of
one url leaves the items of every other url unchanged. -/
theorem batch_accounting (envOf : String → UrlEnv) (urls : List String) :
    (batch_ingest envOf urls).results.length = (stripUrls urls).length ∧
    (batch_ingest envOf urls).total = (batch_ingest envOf urls).results.length ∧
    (batch_ingest envOf urls).total =
      (batch_ingest envOf urls).successful + (batch_ingest envOf urls).failed ∧
    (batch_ingest envOf urls).successful =
      ((batch_ingest envOf urls).results.filter fun r => r.success).length ∧
    (∀ r ∈ (batch_ingest envOf urls).results, r.success = false →
      ∃ m, r.error = some m) ∧
    (∀ (envOf2 : String → UrlEnv) (v : String), (∀ u, u ≠ v → envOf u = envOf2 u) →
      ((batch_ingest envOf urls).results.filter fun r => r.url ≠ v) =
        ((batch_ingest envOf2 urls).results.filter fun r => r.url ≠ v)) := by
  refine ⟨?_, rfl, ?_, ?_, ?_, ?_⟩
  · simp [batch_ingest]
  · have hle :
        List.countP (fun r => r.success)
            ((stripUrls urls).map fun u => process_single_url u (envOf u)) ≤
          ((stripUrls urls).map fun u => process_single_url u (envOf u)).length :=
      List.countP_le_length _
    simp only [batch_ingest]
    omega
  · simp only [batch_ingest]
    exact List.countP_eq_length_filter _ _
  · intro r hr hfalse
    simp only [batch_ingest, List.mem_map] at hr
    obtain ⟨u, hu, rfl⟩ := hr
    rcases process_url_shape u (envOf u) with hs | hm
    · simp [hfalse] at hs
    · exact hm
  · intro envOf2 v hagree
    simp only [batch_ingest]
    exact batch_isolation_aux envOf envOf2 v hagree (stripUrls urls)

/-- C3 witness: the isolation conjunct applied at a concrete one-url batch
whose only url fails by ladder exhaustion. -/
theorem batch_accounting_witness :
    ((batch_ingest (fun _ => ⟨Except.error "x", Except.ok (), Except.ok "p"⟩)
          ["http://a"]).results.filter fun r => r.url ≠ "http://b") =
      ((batch_ingest (fun _ => ⟨Except.error "x", Except.ok (), Except.ok "p"⟩)
          ["http://a"]).results.filter fun r => r.url ≠ "http://b") :=
  (batch_accounting (fun _ => ⟨Except.error "x", Except.ok (), Except.ok "p"⟩)
      ["http://a"]).2.2.2.2.2
    (fun _ => ⟨Except.error "x", Except.ok (), Except.ok "p"⟩) "http://b"
    (fun _ _ => rfl)

/-! ### Claims C5 and C6: per-strategy success and block conditions -/

/-- C5 counterexample: a clean 200-status response of exactly 500
characters is rejected by the layer-1 success check, because the code
demands strictly more than 500 characters; and the layer-2 httpx check
approves a body whose first kilobyte contains the block keyword "blocked",
because layer 2 performs no keyword scan at all. -/
theorem strategy_success_counterexample :
    pyLen c500 = 500 ∧
    fetch_with_curl_cffi 200 c500 = none ∧
    pyIn "blocked" (pySlice (pyLower blockedContent) 1000) = true ∧
    fetch_with_httpx 200 blockedContent = some blockedContent :=
  ⟨by decide, by decide, by decide, by decide⟩

/-- C5 amended: each strategy approves a response exactly under its own
condition, always with status 200 for the direct clients and body length
strictly greater than 500; keyword screening happens only in layer 1 (the
word "blocked" in the first 1000 lowered characters), layer 3 (five
indicators in the first 2000 lowered characters) and layer 6 (seven
challenge indicators anywhere in the lowered body); layers 2, 4 and 5
check no keywords. -/
theorem strategy_success_characterization (status : Nat) (content : String) :
    (fetch_with_curl_cffi status content = some content ↔
      status = 200 ∧ 500 < pyLen content ∧
        pyIn "blocked" (pySlice (pyLower content) 1000) = false) ∧
    (fetch_with_httpx status content = some content ↔
      status = 200 ∧ 500 < pyLen content) ∧
    (fetch_with_cloudscraper status content = some content ↔
      status = 200 ∧ 500 < pyLen content ∧
        ∀ ind ∈ cloudscraperIndicators,
          pyIn ind (pySlice (pyLower content) 2000) = false) ∧
    (fetch_with_playwright_basic status content = some content ↔
      status ∉ pwBlockStatuses ∧ 500 < pyLen content) ∧
    (fetch_with_playwright_human status content = some content ↔
      status ∉ pwBlockStatuses ∧ 500 < pyLen content) ∧
    (fetch_with_playwright_challenge content = some content ↔
      500 < pyLen content ∧
        ∀ ind ∈ challengeIndicators, pyIn ind (pyLower content) = false) := by
  refine ⟨?_, ?_, ?_, ?_, ?_, ?_⟩
  · unfold fetch_with_curl_cffi
    split_ifs with hb h200 hlen hkw
    · simp only [false_iff]
      rintro ⟨rfl, -, -⟩
      exact absurd hb (by decide)
    · simp only [false_iff]
      rintro ⟨-, -, hk⟩
      rw [hkw] at hk
      cases hk
    · simp only [true_iff]
      exact ⟨h200, hlen, by simpa using hkw⟩
    · simp only [false_iff]
      rintro ⟨-, hl, -⟩
      exact hlen hl
    · simp only [false_iff]
      rintro ⟨hs, -, -⟩
      exact h200 hs
  · unfold fetch_with_httpx
    split_ifs with hb h200 hlen
    · simp only [false_iff]
      rintro ⟨rfl, -⟩
      exact absurd hb (by decide)
    · simp only [true_iff]
      exact ⟨h200, hlen⟩
    · simp only [false_iff]
      rintro ⟨-, hl⟩
      exact hlen hl
    · simp only [false_iff]
      rintro ⟨hs, -⟩
      exact h200 hs
  · unfold fetch_with_cloudscraper
    split_ifs with hb h200 hlen hkw
    · simp only [false_iff]
      rintro ⟨rfl, -, -⟩
      exact absurd hb (by decide)
    · simp only [true_iff]
      refine ⟨h200, hlen, ?_⟩
      intro ind hind
      have := List.all_eq_true.mp hkw ind hind
      simpa using this
    · simp only [false_iff]
      rintro ⟨-, -, hall⟩
      apply hkw
      rw [List.all_eq_true]
      intro ind hind
      simpa using hall ind hind
    · simp only [false_iff]
      rintro ⟨-, hl, -⟩
      exact hlen hl
    · simp only [false_iff]
      rintro ⟨hs, -, -⟩
      exact h200 hs
  · unfold fetch_with_playwright_basic
    split_ifs with hb hlen
    · simp only [false_iff]
      rintro ⟨hs, -⟩
      exact hs (List.elem_iff.mp hb)
    · simp only [true_iff]
      refine ⟨?_, hlen⟩
      intro hmem
      exact hb (List.elem_iff.mpr hmem)
    · simp only [false_iff]
      rintro ⟨-, hl⟩
      exact hlen hl
  · unfold fetch_with_playwright_human
    split_ifs with hb hlen
    · simp only [false_iff]
      rintro ⟨hs, -⟩
      exact hs (List.elem_iff.mp hb)
    · simp only [true_iff]
      refine ⟨?_, hlen⟩
      intro hmem
      exact hb (List.elem_iff.mpr hmem)
    · simp only [false_iff]
      rintro ⟨-, hl⟩
      exact hlen hl
  · unfold fetch_with_playwright_challenge
    split_ifs with hlen hkw
    · simp only [true_iff]
      refine ⟨hlen, ?_⟩
      intro ind hind
      have := List.all_eq_true.mp hkw ind hind
      simpa using this
    · simp only [false_iff]
      rintro ⟨-, hall⟩
      apply hkw
      rw [List.all_eq_true]
      intro ind hind
      simpa using hall ind hind
    · simp only [false_iff]
      rintro ⟨hl, -⟩
      exact hlen hl

/-- C5 witness: the characterization applied at a concrete approved
layer-2 response of 501 characters. -/
theorem strategy_success_characterization_witness :
    fetch_with_httpx 200 longContent = some longContent :=
  (strategy_success_characterization 200 longContent).2.1.mpr
    ⟨rfl, by rw [show pyLen longContent = 501 from by
      simp [pyLen, longContent, List.length_replicate]]; omega⟩

/-- C6 counterexample: 520 is one of the recognized block-signaling
statuses, yet the basic playwright strategy approves a 501-character body
served with status 520, because the browser layers only test the statuses
403, 429 and 503. -/
theorem playwright_block_counterexample :
    blockStatuses.contains 520 = true ∧
    fetch_with_playwright_basic 520 longContent = some longContent :=
  ⟨by decide, by decide⟩

/-- C6 amended: every response whose status lies in the recognized block
set is rejected by the three direct-client strategies; the basic and human
browser strategies reject only the statuses 403, 429 and 503 of that set
and approve any sufficiently long body under the remaining five statuses;
the challenge browser strategy inspects no status at all. -/
theorem block_status_rejection (status : Nat) (content : String)
    (h : status ∈ blockStatuses) :
    fetch_with_curl_cffi status content = none ∧
    fetch_with_httpx status content = none ∧
    fetch_with_cloudscraper status content = none ∧
    (status ∈ pwBlockStatuses →
      fetch_with_playwright_basic status content = none ∧
      fetch_with_playwright_human status content = none) ∧
    (status ∉ pwBlockStatuses → 500 < pyLen content →
      fetch_with_playwright_basic status content = some content ∧
      fetch_with_playwright_human status content = some content) := by
  have hb : blockStatuses.contains status = true := List.elem_iff.mpr h
  refine ⟨?_, ?_, ?_, ?_, ?_⟩
  · unfold fetch_with_curl_cffi
    rw [if_pos hb]
  · unfold fetch_with_httpx
    rw [if_pos hb]
  · unfold fetch_with_cloudscraper
    rw [if_pos hb]
  · intro hpw
    have hb2 : pwBlockStatuses.contains status = true := List.elem_iff.mpr hpw
    constructor
    · unfold fetch_with_playwright_basic
      rw [if_pos hb2]
    · unfold fetch_with_playwright_human
      rw [if_pos hb2]
  · intro hnpw hlen
    have hb2 : ¬ (pwBlockStatuses.contains status = true) :=
      fun hc => hnpw (List.elem_iff.mp hc)
    constructor
    · unfold fetch_with_playwright_basic
      rw [if_neg hb2, if_pos hlen]
    · unfold fetch_with_playwright_human
      rw [if_neg hb2, if_pos hlen]

/-- C6 witness: the rejection statement applied at status 403. -/
theorem block_status_rejection_witness :
    fetch_with_curl_cffi 403 "x" = none ∧ fetch_with_httpx 403 "x" = none :=
  ⟨(block_status_rejection 403 "x" (by decide)).1,
    (block_status_rejection 403 "x" (by decide)).2.1⟩

/-! ### Claim C10: the stricter batch-level minimum-content condition -/

theorem process_success_content (url : String) (e : UrlEnv) (c : String)
    (hf : e.fetchResult = Except.ok c)
    (h : (process_single_url url e).success = true) :
    ¬ (c = "" ∨ pyLen c < 100) := by
  intro hc
  unfold process_single_url at h
  split at h
  · cases h
  · rw [hf] at h
    simp only [if_pos hc] at h
    cases h

/-- C10: in batch mode a url whose ladder fetch succeeds with content
shorter than 100 characters becomes an unsuccessful item carrying the fixed
too-short error message, and a successful item always stems from fetched
content of at least 100 characters; by contrast the single-fetch operation
delivers every ladder success to its caller with no minimum length. -/
theorem batch_requires_min_content (url : String) (env : UrlEnv) (content : String)
    (hu : (pyStarts url "http://" || pyStarts url "https://") = true)
    (hf : env.fetchResult = Except.ok content) (hshort : pyLen content < 100) :
    process_single_url url env =
      ⟨url, false, some "Failed to fetch page content or page too short", none⟩ ∧
    (∀ (e2 : UrlEnv) (c : String), e2.fetchResult = Except.ok c →
      (process_single_url url e2).success = true → 100 ≤ pyLen c) ∧
    (∀ (g : String → Option String) (u : String) (results : Nat → Option String),
      (fetchTrace results).2 = some content →
      fetch_page_content g u results = Except.ok (clean_html_content g content)) := by
  refine ⟨?_, ?_, ?_⟩
  · unfold process_single_url
    rw [hu, hf]
    simp only [Bool.not_true, Bool.false_eq_true, if_false]
    rw [if_pos (Or.inr hshort)]
  · intro e2 c hfe hsucc
    have hnot := process_success_content url e2 c hfe hsucc
    rw [not_or] at hnot
    omega
  · intro g u results hres
    unfold fetch_page_content
    rw [hres]

/-- C10 witness: a two-character fetched body in a batch run becomes the
fixed too-short failure item. -/
theorem batch_requires_min_content_witness :
    process_single_url "http://a" ⟨Except.ok "hi", Except.ok (), Except.ok "p"⟩ =
      ⟨"http://a", false, some "Failed to fetch page content or page too short",
        none⟩ :=
  (batch_requires_min_content "http://a"
      ⟨Except.ok "hi", Except.ok (), Except.ok "p"⟩ "hi"
      (by decide) rfl (by decide)).1

end ScholarMap
